import Mathlib

/-!
Verification development for the esbuild-proxy service (`main.go`).

The Go handler is embedded shallowly: pure Lean functions model the
handler's control flow, the SHA-256 hashing used for cache keys and
ETags, the manual redirect loop, and the build pipeline.  External
effects (network, filesystem, the `depcheck` / `bun` / esbuild tools)
are supplied by an explicit environment record, and the handler is a
total function from that environment and a request to an outcome.
-/

namespace EsbuildProxy

/-! ### Bytes and SHA-256

`crypto/sha256` as used at `main.go:192-194` (cache key) and
`main.go:98` (ETag).  Bytes are `Nat`s below 256; 32-bit words are
`Nat`s reduced modulo `2^32`.  This is the FIPS 180-4 algorithm. -/

abbrev Bytes := List Nat

def w32 (x : Nat) : Nat := x % 4294967296

def rotr (n x : Nat) : Nat := w32 ((x >>> n) ||| (x <<< (32 - n)))

def bnot32 (x : Nat) : Nat := 4294967295 ^^^ x

def shaCh (x y z : Nat) : Nat := (x &&& y) ^^^ (bnot32 x &&& z)

def shaMaj (x y z : Nat) : Nat := (x &&& y) ^^^ (x &&& z) ^^^ (y &&& z)

def bsig0 (x : Nat) : Nat := rotr 2 x ^^^ rotr 13 x ^^^ rotr 22 x

def bsig1 (x : Nat) : Nat := rotr 6 x ^^^ rotr 11 x ^^^ rotr 25 x

def ssig0 (x : Nat) : Nat := rotr 7 x ^^^ rotr 18 x ^^^ (x >>> 3)

def ssig1 (x : Nat) : Nat := rotr 17 x ^^^ rotr 19 x ^^^ (x >>> 10)

/-- The 64 round constants of FIPS 180-4 §4.2.2 (in decimal). -/
def shaK : List Nat :=
  [1116352408, 1899447441, 3049323471, 3921009573, 961987163, 1508970993,
   2453635748, 2870763221, 3624381080, 310598401, 607225278, 1426881987,
   1925078388, 2162078206, 2614888103, 3248222580, 3835390401, 4022224774,
   264347078, 604807628, 770255983, 1249150122, 1555081692, 1996064986,
   2554220882, 2821834349, 2952996808, 3210313671, 3336571891, 3584528711,
   113926993, 338241895, 666307205, 773529912, 1294757372, 1396182291,
   1695183700, 1986661051, 2177026350, 2456956037, 2730485921, 2820302411,
   3259730800, 3345764771, 3516065817, 3600352804, 4094571909, 275423344,
   430227734, 506948616, 659060556, 883997877, 958139571, 1322822218,
   1537002063, 1747873779, 1955562222, 2024104815, 2227730452, 2361852424,
   2428436474, 2756734187, 3204031479, 3329325298]

structure Hash8 where
  a : Nat
  b : Nat
  c : Nat
  d : Nat
  e : Nat
  f : Nat
  g : Nat
  h : Nat
  deriving DecidableEq

/-- The initial hash value of FIPS 180-4 §5.3.3 (in decimal). -/
def shaH0 : Hash8 :=
  ⟨1779033703, 3144134277, 1013904242, 2773480762,
   1359893119, 2600822924, 528734635, 1541459225⟩

/-- Big-endian 8-byte encoding of the bit length, for the padding tail. -/
def be64 (n : Nat) : Bytes :=
  [(n >>> 56) % 256, (n >>> 48) % 256, (n >>> 40) % 256, (n >>> 32) % 256,
   (n >>> 24) % 256, (n >>> 16) % 256, (n >>> 8) % 256, n % 256]

/-- Big-endian 4-byte encoding of a 32-bit word. -/
def be32 (n : Nat) : Bytes :=
  [(n >>> 24) % 256, (n >>> 16) % 256, (n >>> 8) % 256, n % 256]

/-- FIPS 180-4 padding: append 0x80, zeros up to 56 mod 64, then the
64-bit big-endian bit length. -/
def padMessage (msg : Bytes) : Bytes :=
  msg ++ [0x80] ++ List.replicate ((119 - msg.length % 64) % 64) 0 ++ be64 (8 * msg.length)

def toBlocksAux : Nat → Bytes → List Bytes
  | 0, _ => []
  | _, [] => []
  | fuel + 1, l => l.take 64 :: toBlocksAux fuel (l.drop 64)

/-- Split a byte string into 64-byte blocks (the input is always padded
to a multiple of 64, so `l.length` steps more than suffice). -/
def toBlocks (l : Bytes) : List Bytes := toBlocksAux l.length l

/-- The first 16 big-endian 32-bit words of a block. -/
def words16 : Bytes → List Nat
  | a :: b :: c :: d :: rest => (((a * 256 + b) * 256 + c) * 256 + d) :: words16 rest
  | _ => []

/-- One message-schedule extension step: append
`σ1 w[n-2] + w[n-7] + σ0 w[n-15] + w[n-16]`. -/
def extendStep (w : List Nat) : List Nat :=
  w ++ [w32 (ssig1 (w.getD (w.length - 2) 0) + w.getD (w.length - 7) 0 +
             ssig0 (w.getD (w.length - 15) 0) + w.getD (w.length - 16) 0)]

def schedule (block : Bytes) : List Nat :=
  (List.range 48).foldl (fun w _ => extendStep w) (words16 block)

def shaRound (s : Hash8) (ki wi : Nat) : Hash8 :=
  let t1 := w32 (s.h + bsig1 s.e + shaCh s.e s.f s.g + ki + wi)
  let t2 := w32 (bsig0 s.a + shaMaj s.a s.b s.c)
  ⟨w32 (t1 + t2), s.a, s.b, s.c, w32 (s.d + t1), s.e, s.f, s.g⟩

def compress (s : Hash8) (block : Bytes) : Hash8 :=
  let t := (shaK.zip (schedule block)).foldl (fun st p => shaRound st p.1 p.2) s
  ⟨w32 (s.a + t.a), w32 (s.b + t.b), w32 (s.c + t.c), w32 (s.d + t.d),
   w32 (s.e + t.e), w32 (s.f + t.f), w32 (s.g + t.g), w32 (s.h + t.h)⟩

/-- SHA-256 digest (32 bytes) of a byte string; models Go's
`sha256.Sum256` / `sha256.New` + `Write` + `Sum`. -/
def sha256 (msg : Bytes) : Bytes :=
  let f := (toBlocks (padMessage msg)).foldl compress shaH0
  be32 f.a ++ be32 f.b ++ be32 f.c ++ be32 f.d ++ be32 f.e ++ be32 f.f ++ be32 f.g ++ be32 f.h

theorem sha256_length (msg : Bytes) : (sha256 msg).length = 32 := by
  simp [sha256, be32]

/-! ### Hex encoding and strings as bytes -/

/-- Lowercase hex digit, as produced by Go's `%x` verb. -/
def hexDigit (n : Nat) : Char := if n < 10 then Char.ofNat (48 + n) else Char.ofNat (87 + n)

def hexByte (b : Nat) : List Char := [hexDigit (b / 16 % 16), hexDigit (b % 16)]

/-- `fmt.Sprintf("%x", bytes)`: each byte as two lowercase hex digits. -/
def hexString (bs : Bytes) : String := ⟨(bs.map hexByte).flatten⟩

/-- UTF-8 encoding of one code point, as in Go's `[]byte(string)`. -/
def utf8Bytes (c : Char) : Bytes :=
  let n := c.toNat
  if n < 128 then [n]
  else if n < 2048 then [192 + n / 64, 128 + n % 64]
  else if n < 65536 then [224 + n / 4096, 128 + n / 64 % 64, 128 + n % 64]
  else [240 + n / 262144, 128 + n / 4096 % 64, 128 + n / 64 % 64, 128 + n % 64]

/-- The UTF-8 bytes of a string, Go's `[]byte(s)`. -/
def strBytes (s : String) : Bytes := (s.data.map utf8Bytes).flatten

/-- Go string slicing `[:20]`; the operand here is always an ASCII hex
string, so byte slicing and character slicing agree. -/
def take20 (s : String) : String := ⟨s.data.take 20⟩

/-- The cache key of `main.go:192-194`:
`fmt.Sprintf("%x", sha256(fullURL))[:20]`. -/
def cacheKey (url : String) : String := take20 (hexString (sha256 (strBytes url)))

example : (cacheKey "https://example.com/mod.ts?").length = 20 := by decide

/-! ### String quoting

`sendError` (`main.go:62-67`) renders its message with `json.Marshal`
and the underlying error with the `%q` verb; both are modelled here for
the character ranges that can occur (escaping of quote, backslash and
control characters, plus `encoding/json`'s default HTML escaping). -/

def jsonEscapeChar (c : Char) : List Char :=
  if c = '"' then ['\\', '"']
  else if c = '\\' then ['\\', '\\']
  else if c = '\n' then ['\\', 'n']
  else if c = '\r' then ['\\', 'r']
  else if c = '\t' then ['\\', 't']
  else if c = '<' then ['\\', 'u', '0', '0', '3', 'c']
  else if c = '>' then ['\\', 'u', '0', '0', '3', 'e']
  else if c = '&' then ['\\', 'u', '0', '0', '2', '6']
  else if c.toNat < 32 then '\\' :: 'u' :: '0' :: '0' :: hexByte c.toNat
  else [c]

/-- `json.Marshal` of a Go string value. -/
def jsonMarshalString (s : String) : String :=
  ⟨'"' :: (s.data.map jsonEscapeChar).flatten ++ ['"']⟩

def goEscapeChar (c : Char) : List Char :=
  if c = '"' then ['\\', '"']
  else if c = '\\' then ['\\', '\\']
  else if c = '\n' then ['\\', 'n']
  else if c = '\t' then ['\\', 't']
  else if c = '\r' then ['\\', 'r']
  else if c.toNat = 7 then ['\\', 'a']
  else if c.toNat = 8 then ['\\', 'b']
  else if c.toNat = 12 then ['\\', 'f']
  else if c.toNat = 11 then ['\\', 'v']
  else if c.toNat < 32 ∨ c.toNat = 127 then '\\' :: 'x' :: hexByte c.toNat
  else [c]

/-- `fmt.Sprintf("%q", s)` (Go `strconv.Quote`). -/
def goQuote (s : String) : String :=
  ⟨'"' :: (s.data.map goEscapeChar).flatten ++ ['"']⟩

/-! ### HTTP responses -/

structure HResponse where
  status : Nat
  headers : List (String × String)
  body : Bytes
  deriving DecidableEq

/-- Go's `Header().Set`: replace an existing entry for the key, else
append one. -/
def setHeader (hs : List (String × String)) (k v : String) : List (String × String) :=
  if hs.any (fun p => p.1 == k) then hs.map (fun p => if p.1 == k then (k, v) else p)
  else hs ++ [(k, v)]

/-- Body written by `sendError` (`main.go:62-67`): two `console.error`
statements, the first with the JSON-encoded message, the second with
the `%q`-quoted error string. -/
def errorScript (msg errStr : String) : String :=
  "console.error(" ++ jsonMarshalString msg ++ ");" ++ "console.error(" ++ goQuote errStr ++ ")"

/-- `sendError`: sets the JavaScript content type and writes the error
script; it never calls `WriteHeader`, so the status stays the default
200. -/
def errResp (msg errStr : String) : HResponse :=
  { status := 200,
    headers := setHeader [] "Content-Type" "application/javascript",
    body := strBytes (errorScript msg errStr) }

/-- ETag of `main.go:98-99`: quoted lowercase hex of the first 16 bytes
of the SHA-256 of the bundle. -/
def etagOf (bundle : Bytes) : String := "\"" ++ hexString ((sha256 bundle).take 16) ++ "\""

/-- Error text of `os.ReadFile` on a missing cache entry. -/
def cacheReadErrMsg (hash : String) : String :=
  "open .cache/" ++ hash ++ ": no such file or directory"

/-- `serveBundle` (`main.go:88-114`).  The cache is the map from key to
stored bytes; a `none` entry is the read-failure branch.  `ETag` is set
twice in the source; `Header().Set` makes the second a no-op. -/
def serveBundle (cache : String → Option Bytes) (ifNoneMatch hash : String) : HResponse :=
  match cache hash with
  | none => errResp ("Failed to read from cache: " ++ cacheReadErrMsg hash) (cacheReadErrMsg hash)
  | some bundle =>
    let etag := etagOf bundle
    let hs := setHeader [] "Access-Control-Allow-Origin" "*"
    if ifNoneMatch = etag then { status := 304, headers := hs, body := [] }
    else
      { status := 200,
        headers := setHeader (setHeader (setHeader (setHeader (setHeader hs
          "Content-Type" "application/javascript") "ETag" etag) "ETag" etag)
          "Cache-Control" "public, max-age=31536000") "Content-Length" (toString bundle.length),
        body := bundle }

/-! ### Upstream responses and the redirect loop -/

deriving instance DecidableEq for Except

/-- An upstream HTTP response as seen through `net/http`.  `location`
is the absolute URL produced by `resp.Location()` (header resolved
against the request URL); `none` models the error case (missing or
unparsable `Location` header), in which Go's two-value form leaves the
URL pointer `nil`.  `body` is the result of `io.ReadAll(resp.Body)`. -/
structure Resp where
  statusCode : Nat
  status : String
  location : Option String
  body : Except String Bytes
  deriving DecidableEq

/-- The loop guard of `main.go:167-170`. -/
def respIsRedirect (r : Resp) : Bool :=
  r.statusCode == 301 || r.statusCode == 302 || r.statusCode == 303 || r.statusCode == 307

inductive FetchOut
  | ok (finalURL : String) (resp : Resp)
  | netErr (e : String)
  | locCrash
  | fuelOut
  deriving DecidableEq

/-- The manual redirect loop of `main.go:167-179`.  The Go loop has no
iteration cap; `fuel` is an artifact of the embedding and `fuelOut`
stands for non-termination (the theorems show the result is stable for
every sufficiently large fuel).  `locCrash` is the nil-pointer
dereference of `u.String()` when `resp.Location()` returned an error
that line 172 discards. -/
def followLoop (net : String → Except String Resp) : Nat → String → Resp → FetchOut
  | 0, u, r => if respIsRedirect r then .fuelOut else .ok u r
  | fuel + 1, u, r =>
    if respIsRedirect r then
      match r.location with
      | none => .locCrash
      | some loc =>
        match net loc with
        | .error e => .netErr e
        | .ok r' => followLoop net fuel loc r'
    else .ok u r

/-! ### Requests, environment, pipeline outcome -/

structure Req where
  path : String
  rawQuery : String
  ifNoneMatch : String
  host : String
  scheme : String

/-- Result of `exec.Cmd.Run`: success, an `*exec.ExitError` with a
nonzero exit code, or another error (e.g. the binary was not found). -/
inductive RunResult
  | success
  | exitErr (code : Nat)
  | execErr (msg : String)
  deriving DecidableEq

/-- Observable pipeline events, in order of occurrence. -/
inductive Ev
  | depcheckRun
  | installRun (args : List String)
  | esbuildRun
  | cacheWrite (key : String)
  deriving DecidableEq

/-- The effectful world a single request runs against.  Network,
filesystem and tool behaviors are fixed inputs; the cache is the map
from cache key to stored entry bytes.  Workspace files live in a fresh
`os.MkdirTemp` directory disjoint from `.cache/`, so only their
injected write errors are tracked, not their contents. -/
structure Env where
  net : String → Except String Resp
  cache : String → Option Bytes
  readFile : String → Except String Bytes
  mkdirTemp : Except String String
  mkdirSrcErr : Option String
  writeFile : String → Option String
  depcheckRun : RunResult
  depcheckStdout : String
  depcheckStderr : String
  jsonParse : String → Except String (List (String × List String))
  installRun : List String → RunResult
  installStdout : String
  esbuildErrors : List String
  esbuildOut : Option Bytes
  cacheWriteErr : Option String

inductive Outcome
  | html (resp : HResponse)
  | redirect (resp : HResponse)
  | served (resp : HResponse) (cacheHit : Bool)
  | failed (msg errStr : String)
  deriving DecidableEq

/-- The HTTP response a terminal outcome writes; a `failed` outcome
responds via `sendError`. -/
def responseOf : Outcome → HResponse
  | .html r => r
  | .redirect r => r
  | .served r _ => r
  | .failed m e => errResp m e

/-- Handler result: a terminal outcome with the final cache state and
the event trace, a panic (`crash`), or non-termination (`diverge`). -/
inductive HOut
  | ok (out : Outcome) (cache : String → Option Bytes) (events : List Ev)
  | crash
  | diverge

/-! ### The build pipeline (cache-miss path) -/

/-- The fixed manifest set copied at `main.go:228`. -/
def manifestFiles : List String := ["package.json", "bun.lock", "tsconfig.json"]

/-- The copy loop of `main.go:228-238`: read each manifest from the
working directory and write it into the workspace; the first failure
aborts with the corresponding message. -/
def copyManifests (env : Env) (tmp : String) : List String → Option (String × String)
  | [] => none
  | f :: rest =>
    match env.readFile f with
    | .error e => some ("Failed to read " ++ f ++ ": " ++ e, e)
    | .ok _ =>
      match env.writeFile (tmp ++ "/" ++ f) with
      | some e => some ("Failed to write " ++ f ++ ": " ++ e, e)
      | none => copyManifests env tmp rest

/-- The depcheck invocation of `main.go:256-272`: an `*exec.ExitError`
with exit code 255 (depcheck's "ran successfully, found issues" code)
is treated as success and its stdout is parsed; any other exit error is
a hard failure carrying captured stdout and stderr; a non-exit error is
a hard failure with the error text. -/
def depcheckStep (env : Env) : Except (String × String) String :=
  match env.depcheckRun with
  | .success => .ok env.depcheckStdout
  | .exitErr code =>
    if code ≠ 255 then
      .error ("Depcheck failed: " ++ env.depcheckStdout ++ "\n" ++ env.depcheckStderr,
              "exit status " ++ toString code)
    else .ok env.depcheckStdout
  | .execErr e => .error ("Depcheck failed " ++ e, e)

/-- The `bun` argument list of `main.go:288-294`: `install`, then
`--save` when there are missing packages, then every key of the missing
map. -/
def installArgs (missing : List (String × List String)) : List String :=
  ("install" :: (if missing.length > 0 then ["--save"] else [])) ++ missing.map Prod.fst

/-- Go's `%v` rendering of the esbuild message slice in
`fmt.Errorf("build failed: %v errors", result.Errors)`; only its
dependence on the messages matters downstream. -/
def sepSpace : List String → String
  | [] => ""
  | [x] => x
  | x :: xs => x ++ " " ++ sepSpace xs

def buildFailedErr (errs : List String) : String :=
  "build failed: " ++ ("[" ++ sepSpace errs ++ "]") ++ " errors"

/-- Error text of `os.ReadFile` on a missing esbuild output file. -/
def bundleReadErrMsg (tmp : String) : String :=
  "open " ++ tmp ++ "/dist/bundle.js: no such file or directory"

/-- The cache map after `os.WriteFile(cachePath, bundle, 0644)`. -/
def cacheInsert (cache : String → Option Bytes) (hash : String) (bundle : Bytes) :
    String → Option Bytes :=
  fun k => if k = hash then some bundle else cache k

/-- `main.go:274-357`, from parsing the depcheck output onward: parse
the missing-dependency map, run `bun install` once, run the esbuild
build, read the output file, write it to the cache and serve it.  Each
failure responds through `sendError` and leaves the cache unchanged. -/
def afterDepcheck (env : Env) (req : Req) (hash tmp output : String) : HOut :=
  match env.jsonParse output with
  | .error e =>
    .ok (.failed ("Failed to parse depcheck output: " ++ e) e) env.cache [.depcheckRun]
  | .ok missing =>
    match env.installRun (installArgs missing) with
    | .exitErr code =>
      .ok (.failed ("bun install failed: " ++ env.installStdout) ("exit status " ++ toString code))
        env.cache [.depcheckRun, .installRun (installArgs missing)]
    | .execErr e =>
      .ok (.failed ("bun install failed: " ++ e) e)
        env.cache [.depcheckRun, .installRun (installArgs missing)]
    | .success =>
      if env.esbuildErrors.length > 0 then
        .ok (.failed "Build failed" (buildFailedErr env.esbuildErrors))
          env.cache [.depcheckRun, .installRun (installArgs missing), .esbuildRun]
      else
        match env.esbuildOut with
        | none =>
          .ok (.failed ("Failed to read bundle.js: " ++ bundleReadErrMsg tmp) (bundleReadErrMsg tmp))
            env.cache [.depcheckRun, .installRun (installArgs missing), .esbuildRun]
        | some bundle =>
          match env.cacheWriteErr with
          | some e =>
            .ok (.failed ("Failed to write to cache: " ++ e) e)
              env.cache [.depcheckRun, .installRun (installArgs missing), .esbuildRun]
          | none =>
            .ok (.served (serveBundle (cacheInsert env.cache hash bundle) req.ifNoneMatch hash) false)
              (cacheInsert env.cache hash bundle)
              [.depcheckRun, .installRun (installArgs missing), .esbuildRun, .cacheWrite hash]

/-- The cache-miss path, `main.go:204-272`: read the fetched body, set
up the workspace (temp dir, `src` dir, manifest copies, entry file),
run depcheck, then continue with `afterDepcheck`.  The fetched content
is only written into the fresh workspace, so aside from injected write
errors it does not affect the observable state. -/
def missPath (env : Env) (req : Req) (hash : String) (resp : Resp) : HOut :=
  match resp.body with
  | .error e => .ok (.failed ("Failed to read response: " ++ e) e) env.cache []
  | .ok _ =>
    match env.mkdirTemp with
    | .error e => .ok (.failed ("Failed to create temp dir: " ++ e) e) env.cache []
    | .ok tmp =>
      match env.mkdirSrcErr with
      | some e => .ok (.failed ("Failed to create src dir: " ++ e) e) env.cache []
      | none =>
        match copyManifests env tmp manifestFiles with
        | some pe => .ok (.failed pe.1 pe.2) env.cache []
        | none =>
          match env.writeFile (tmp ++ "/src/index.ts") with
          | some e => .ok (.failed ("Failed to write index.ts: " ++ e) e) env.cache []
          | none =>
            match depcheckStep env with
            | .error pe => .ok (.failed pe.1 pe.2) env.cache [.depcheckRun]
            | .ok output => afterDepcheck env req hash tmp output

/-! ### The request dispatcher -/

/-- `strings.TrimPrefix(path, "/")`. -/
def trimLeadSlash (s : String) : String :=
  match s.data with
  | '/' :: rest => ⟨rest⟩
  | _ => s

/-- The target URL of `main.go:147-148`: everything after the leading
slash, concatenated — unconditionally — with `"?"` and the raw query
string. -/
def reqURL (req : Req) : String := trimLeadSlash req.path ++ "?" ++ req.rawQuery

/-- `b, _ := io.ReadAll(resp.Body)` with the error discarded. -/
def readAllPartial : Except String Bytes → Bytes
  | .ok bs => bs
  | .error _ => []

/-- Models Go `string(b)` for the (ASCII) bodies that reach it. -/
def asciiStr (bs : Bytes) : String := ⟨bs.map Char.ofNat⟩

/-- Models `fmt.Errorf("status %d", errors.New(string(b)))` at
`main.go:183`: the `%d` verb applied to an error value yields Go's
bad-verb rendering `%!d(...)`; only its dependence on the body text
matters to the pipeline. -/
def statusDErr (b : String) : String :=
  "status %!d(*errors.errorString=&\x7b" ++ b ++ " <nil>\x7d)"

def htmlPageA : String :=
  "\n<!DOCTYPE html>\n<html>\n<head>\n\t<title>TypeScript Bundle Service</title>\n\t<link rel=\"icon\" href=\"https://fav.farm/💩\">\n\t<style>\n\t\tbody \x7b font-family: system-ui; max-width: 800px; margin: 40px auto; padding: 0 20px; line-height: 1.6; \x7d\n\t\tpre \x7b background: #f4f4f4; padding: 15px; border-radius: 5px; \x7d\n\t</style>\n</head>\n<body>\n\t<h1>TypeScript Bundle Service</h1>\n\t<p>This service bundles TypeScript files into JavaScript. To use it, append a URL to a TypeScript file to this domain.</p>\n\t<p>Example usage:</p>\n\t<pre>import \"<a href=\""

def htmlPageB : String := "/https://esm.town/v/maxm/blitheJadeBee\">"

def htmlPageC : String := "/https://esm.town/v/maxm/blitheJadeBee</a>\"</pre>\n</body>\n</html>"

/-- The root-path page of `main.go:141-145`:
`fmt.Sprintf(htmlPage, "//"+r.Host, r.URL.Scheme+"https://"+r.Host)`. -/
def htmlResp (req : Req) : HResponse :=
  { status := 200,
    headers := setHeader [] "Content-Type" "text/html; charset=utf-8",
    body := strBytes (htmlPageA ++ ("//" ++ req.host) ++ htmlPageB ++
                      (req.scheme ++ "https://" ++ req.host) ++ htmlPageC) }

/-- The request handler of `main.go:138-358`.  `fuel` bounds the
redirect loop of the embedding only; `main.go` has no such bound and
`HOut.diverge` stands for the runs the Go loop would not finish. -/
def handle (fuel : Nat) (env : Env) (req : Req) : HOut :=
  if req.path = "/" then
    .ok (.html (htmlResp req)) env.cache []
  else
    match env.net (reqURL req) with
    | .error e => .ok (.failed ("Failed to fetch URL: " ++ e) e) env.cache []
    | .ok r0 =>
      match followLoop env.net fuel (reqURL req) r0 with
      | .fuelOut => .diverge
      | .locCrash => .crash
      | .netErr e => .ok (.failed ("Failed to follow redirect: " ++ e) e) env.cache []
      | .ok finalURL resp =>
        if resp.statusCode ≠ 200 then
          .ok (.failed ("Failed to fetch URL: " ++ resp.status)
                (statusDErr (asciiStr (readAllPartial resp.body)))) env.cache []
        else if reqURL req ≠ finalURL then
          .ok (.redirect { status := 302,
                           headers := setHeader [] "Location" ("/" ++ finalURL),
                           body := [] }) env.cache []
        else
          if (env.cache (cacheKey finalURL)).isSome then
            .ok (.served (serveBundle env.cache req.ifNoneMatch (cacheKey finalURL)) true)
              env.cache []
          else
            missPath env req (cacheKey finalURL) resp

/-! ### C1: cache-key determinism, fixed hex length -/

theorem flatten_hexByte_length (bs : Bytes) : ((bs.map hexByte).flatten).length = 2 * bs.length := by
  induction bs with
  | nil => rfl
  | cons b t ih =>
    simp only [List.map_cons, List.flatten_cons, List.length_append, ih, hexByte,
      List.length_cons, List.length_nil, List.length_cons]
    omega

theorem cacheKey_length_eq (u : String) : (cacheKey u).length = 20 := by
  have h64 : ((sha256 (strBytes u)).map hexByte).flatten.length = 64 := by
    rw [flatten_hexByte_length, sha256_length]
  show (((sha256 (strBytes u)).map hexByte).flatten.take 20).length = 20
  rw [List.length_take, h64]
  decide

theorem cacheKey_chars_hex (u : String) :
    ∀ c ∈ (cacheKey u).data, c ∈ ("0123456789abcdef").data := by
  intro c hc
  have hc0 : c ∈ ((sha256 (strBytes u)).map hexByte).flatten.take 20 := hc
  have hc1 : c ∈ ((sha256 (strBytes u)).map hexByte).flatten := List.mem_of_mem_take hc0
  rcases List.mem_flatten.mp hc1 with ⟨l, hl, hcl⟩
  rcases List.mem_map.mp hl with ⟨b, _, rfl⟩
  have key : ∀ k, k < 16 → hexDigit k ∈ ("0123456789abcdef").data := by decide
  simp only [hexByte, List.mem_cons, List.not_mem_nil, or_false] at hcl
  rcases hcl with rfl | rfl
  · exact key _ (Nat.mod_lt _ (by omega))
  · exact key _ (Nat.mod_lt _ (by omega))

/-- **C1**: the cache key is a deterministic, fixed-length hexadecimal
truncation of the SHA-256 of the canonical URL: equal canonical URLs
yield equal keys, the key always has length 20, and every character is
a lowercase hex digit. -/
theorem cacheKey_det_hex20 (u v : String) (h : u = v) :
    cacheKey u = cacheKey v ∧ (cacheKey u).length = 20 ∧
    ∀ c ∈ (cacheKey u).data, c ∈ ("0123456789abcdef").data :=
  ⟨h ▸ rfl, cacheKey_length_eq u, cacheKey_chars_hex u⟩

set_option maxRecDepth 100000 in
theorem cacheKey_det_hex20_witness :
    (cacheKey "x?" = cacheKey "x?" ∧ (cacheKey "x?").length = 20 ∧
      ∀ c ∈ (cacheKey "x?").data, c ∈ ("0123456789abcdef").data) ∧
    cacheKey "x?" = "074ab17800f4dc2001ca" :=
  ⟨cacheKey_det_hex20 "x?" "x?" rfl, by decide⟩

/-! ### C2: the redirect loop resolves any finite chain to its last URL -/

/-- A finite redirect chain under network `net`: from `(u, r)`, while
the response status is 301/302/303/307, resolve the `Location` and
fetch it, ending at the first non-redirect response `(v, rf)`; `n`
counts the hops.  Chains of every length `n` are resolved by the loop,
which is the sense in which the reference behavior has no iteration
cap. -/
inductive RedirectChain (net : String → Except String Resp) :
    String → Resp → String → Resp → Nat → Prop
  | done (u : String) (r : Resp) (h : respIsRedirect r = false) :
      RedirectChain net u r u r 0
  | step (u : String) (r : Resp) (loc : String) (r' : Resp) (v : String) (rf : Resp) (n : Nat)
      (hred : respIsRedirect r = true) (hloc : r.location = some loc)
      (hnet : net loc = .ok r') (rest : RedirectChain net loc r' v rf n) :
      RedirectChain net u r v rf (n + 1)

/-- **C2**: the redirect loop repeats exactly while the status is
301/302/303/307 and, for any finite chain, terminates returning the
last URL of the chain and its (non-redirect) response.  The bound `n`
is the chain length; any fuel of at least `n` gives the same result,
so the fuel is an artifact of the embedding, not a cap in the
behavior. -/
theorem followLoop_resolves_chain (net : String → Except String Resp)
    (u : String) (r : Resp) (v : String) (rf : Resp) (n : Nat)
    (hc : RedirectChain net u r v rf n) :
    ∀ m, n ≤ m → followLoop net m u r = .ok v rf ∧ respIsRedirect rf = false := by
  induction hc with
  | done u r h =>
    intro m _
    refine ⟨?_, h⟩
    cases m <;> simp [followLoop, h]
  | step u r loc r' v rf n hred hloc hnet rest ih =>
    intro m hm
    cases m with
    | zero => omega
    | succ m' =>
      have := ih m' (by omega)
      simpa [followLoop, hred, hloc, hnet] using this

def respC2a : Resp := ⟨302, "302 Found", some "https://h/b", .ok []⟩

def respC2b : Resp := ⟨301, "301 Moved Permanently", some "https://h/c", .ok []⟩

def respC2c : Resp := ⟨200, "200 OK", none, .ok [1]⟩

def netC2 : String → Except String Resp := fun s =>
  if s = "https://h/a" then .ok respC2a
  else if s = "https://h/b" then .ok respC2b
  else if s = "https://h/c" then .ok respC2c
  else .error "no such host"

theorem followLoop_resolves_chain_witness :
    followLoop netC2 9 "https://h/a" respC2a = .ok "https://h/c" respC2c ∧
    respIsRedirect respC2c = false :=
  followLoop_resolves_chain netC2 "https://h/a" respC2a "https://h/c" respC2c 2
    (RedirectChain.step _ _ "https://h/b" respC2b _ _ 1 (by decide) (by decide) (by decide)
      (RedirectChain.step _ _ "https://h/c" respC2c _ _ 0 (by decide) (by decide) (by decide)
        (RedirectChain.done _ _ (by decide)))) 9 (by omega)

/-! ### C3: canonicalization mismatch

`main.go` checks `resp.StatusCode != http.StatusOK` (line 181) before
the `originalURL != fullURL` comparison (line 186), so the 302
canonical redirect is issued only when the terminal response of the
chain is 200; a mismatching request whose canonical URL answers
non-200 gets the error script instead. -/

def respC3a : Resp := ⟨302, "302 Found", some "https://h/c3b", .ok []⟩

def respC3b : Resp := ⟨404, "404 Not Found", none, .ok []⟩

def netC3 : String → Except String Resp := fun s =>
  if s = "https://h/c3a?" then .ok respC3a
  else if s = "https://h/c3b" then .ok respC3b
  else .error "no such host"

def envC3 : Env :=
  { net := netC3, cache := fun _ => none, readFile := fun _ => .error "e",
    mkdirTemp := .error "e", mkdirSrcErr := none, writeFile := fun _ => none,
    depcheckRun := .success, depcheckStdout := "", depcheckStderr := "",
    jsonParse := fun _ => .error "e", installRun := fun _ => .success, installStdout := "",
    esbuildErrors := [], esbuildOut := none, cacheWriteErr := none }

def reqC3 : Req := ⟨"/https://h/c3a", "", "", "h", ""⟩

/-- **C3, counterexample**: a request whose URL differs from the
canonical URL obtained after redirect resolution, but whose canonical
URL answers 404: redirect resolution ends at `https://h/c3b` ≠ the
requested `https://h/c3a?`, yet the dispatcher answers the error
script, not a 302 with a `Location` header. -/
theorem canonical_mismatch_counterexample :
    reqURL reqC3 = "https://h/c3a?" ∧
    followLoop netC3 5 "https://h/c3a?" respC3a = .ok "https://h/c3b" respC3b ∧
    ("https://h/c3a?" : String) ≠ "https://h/c3b" ∧
    handle 5 envC3 reqC3 =
      .ok (.failed ("Failed to fetch URL: " ++ "404 Not Found") (statusDErr "")) envC3.cache [] ∧
    (Outcome.failed ("Failed to fetch URL: " ++ "404 Not Found") (statusDErr "")) ≠
      .redirect { status := 302, headers := setHeader [] "Location" ("/" ++ "https://h/c3b"),
                  body := [] } :=
  ⟨by decide, by decide, by decide, rfl, by decide⟩

/-- **C3, amended**: for every request whose requested URL differs from
the canonical URL obtained after redirect resolution *and whose
terminal response status is 200*, the dispatcher responds 302 Found
with `Location: /<canonicalURL>`, leaves the cache unchanged, and runs
no build step on that request. -/
theorem canonical_mismatch_redirect (fuel : Nat) (env : Env) (req : Req) (r0 : Resp)
    (v : String) (rf : Resp)
    (hroot : req.path ≠ "/")
    (hnet : env.net (reqURL req) = .ok r0)
    (hloop : followLoop env.net fuel (reqURL req) r0 = .ok v rf)
    (h200 : rf.statusCode = 200)
    (hdiff : reqURL req ≠ v) :
    handle fuel env req =
      .ok (.redirect { status := 302, headers := setHeader [] "Location" ("/" ++ v), body := [] })
        env.cache [] := by
  unfold handle
  rw [if_neg hroot]
  simp only [hnet, hloop, h200, hdiff]
  simp
  exact fun h => absurd h hdiff

def respC3w : Resp := ⟨200, "200 OK", none, .ok [1]⟩

def netC3w : String → Except String Resp := fun s =>
  if s = "https://h/c3a?" then .ok respC3a
  else if s = "https://h/c3b" then .ok respC3w
  else .error "no such host"

def envC3w : Env :=
  { envC3 with net := netC3w }

theorem canonical_mismatch_redirect_witness :
    handle 5 envC3w reqC3 =
      .ok (.redirect { status := 302,
                       headers := setHeader [] "Location" ("/" ++ "https://h/c3b"),
                       body := [] })
        envC3w.cache [] :=
  canonical_mismatch_redirect 5 envC3w reqC3 respC3a "https://h/c3b" respC3w
    (by decide) (by decide) (by decide) (by decide) (by decide)

/-! ### C4: the Response Server contract -/

theorem etagOf_length (bundle : Bytes) : (etagOf bundle).length = 34 := by
  have h16 : ((sha256 bundle).take 16).length = 16 := by
    rw [List.length_take, sha256_length]
    decide
  have h32 : (hexString ((sha256 bundle).take 16)).data.length = 32 := by
    show (((sha256 bundle).take 16).map hexByte).flatten.length = 32
    rw [flatten_hexByte_length, h16]
  show (etagOf bundle).data.length = 34
  have : (etagOf bundle).data =
      '"' :: (hexString ((sha256 bundle).take 16)).data ++ ['"'] := rfl
  rw [this]
  simp [h32]

/-- **C4**: given a readable cache entry, the served ETag is the quoted
hex of the first 16 bytes of the SHA-256 of the entry's bytes (a string
that can never equal a cache key, whose length is 20, not 34); a
matching `If-None-Match` gets 304 with an empty body; otherwise the
response is 200 with the bundle, `Content-Type: application/javascript`,
the ETag, a one-year public `Cache-Control`, an explicit
`Content-Length` and `Access-Control-Allow-Origin: *`; and any two 200
serves of the same key return byte-identical bodies. -/
theorem serveBundle_contract (cache : String → Option Bytes) (hash url inm : String)
    (bundle : Bytes) (hread : cache hash = some bundle) :
    etagOf bundle = "\"" ++ hexString ((sha256 bundle).take 16) ++ "\"" ∧
    etagOf bundle ≠ cacheKey url ∧
    (inm = etagOf bundle →
      serveBundle cache inm hash =
        { status := 304, headers := [("Access-Control-Allow-Origin", "*")], body := [] }) ∧
    (inm ≠ etagOf bundle →
      serveBundle cache inm hash =
        { status := 200,
          headers := [("Access-Control-Allow-Origin", "*"),
                      ("Content-Type", "application/javascript"),
                      ("ETag", etagOf bundle),
                      ("Cache-Control", "public, max-age=31536000"),
                      ("Content-Length", toString bundle.length)],
          body := bundle }) ∧
    ∀ i1 i2 : String,
      (serveBundle cache i1 hash).status = 200 → (serveBundle cache i2 hash).status = 200 →
      (serveBundle cache i1 hash).body = (serveBundle cache i2 hash).body := by
  have hbody : ∀ i : String, (serveBundle cache i hash).status = 200 →
      (serveBundle cache i hash).body = bundle := by
    intro i hi
    by_cases he : i = etagOf bundle
    · simp only [serveBundle, hread, he, if_pos] at hi
      exact absurd hi (by decide)
    · simp only [serveBundle, hread] at hi ⊢
      rw [if_neg he]
  refine ⟨rfl, ?_, ?_, ?_, ?_⟩
  · intro heq
    have h1 : (etagOf bundle).length = 34 := etagOf_length bundle
    have h2 : (cacheKey url).length = 20 := cacheKey_length_eq url
    rw [heq, h2] at h1
    cases h1
  · intro h
    simp only [serveBundle, hread]
    rw [if_pos h]
    rfl
  · intro h
    simp only [serveBundle, hread]
    rw [if_neg h]
    rfl
  · intro i1 i2 h1 h2
    rw [hbody i1 h1, hbody i2 h2]

def cacheC4 : String → Option Bytes := fun h => if h = "k123" then some [1, 2, 3] else none

set_option maxRecDepth 100000 in
theorem serveBundle_contract_witness :
    cacheC4 "k123" = some [1, 2, 3] ∧
    etagOf [1, 2, 3] = "\"039058c6f2c0cb492c533b0a4d14ef77\"" ∧
    serveBundle cacheC4 "" "k123" =
      { status := 200,
        headers := [("Access-Control-Allow-Origin", "*"),
                    ("Content-Type", "application/javascript"),
                    ("ETag", etagOf [1, 2, 3]),
                    ("Cache-Control", "public, max-age=31536000"),
                    ("Content-Length", toString ([1, 2, 3] : Bytes).length)],
        body := [1, 2, 3] } :=
  ⟨by decide, by decide,
    (serveBundle_contract cacheC4 "k123" "u" "" [1, 2, 3] (by decide)).2.2.2.1 (by decide)⟩

/-! ### C5: failures never touch the cache -/

theorem afterDepcheck_failed_cache (env : Env) (req : Req) (hash tmp output : String)
    (m e : String) (c : String → Option Bytes) (ev : List Ev)
    (h : afterDepcheck env req hash tmp output = .ok (.failed m e) c ev) : c = env.cache := by
  unfold afterDepcheck at h
  repeat' split at h
  all_goals injection h with h1 h2 h3
  all_goals first
    | exact h2.symm
    | injection h1

theorem missPath_failed_cache (env : Env) (req : Req) (hash : String) (resp : Resp)
    (m e : String) (c : String → Option Bytes) (ev : List Ev)
    (h : missPath env req hash resp = .ok (.failed m e) c ev) : c = env.cache := by
  unfold missPath at h
  repeat' split at h
  all_goals first
    | (injection h with h1 h2 h3; exact h2.symm)
    | exact afterDepcheck_failed_cache _ _ _ _ _ _ _ _ _ h

theorem afterDepcheck_cacheWrite (env : Env) (req : Req) (hash tmp output : String)
    (out : Outcome) (c : String → Option Bytes) (ev : List Ev) (k : String)
    (h : afterDepcheck env req hash tmp output = .ok out c ev) (hk : Ev.cacheWrite k ∈ ev) :
    env.esbuildErrors = [] ∧ env.esbuildOut ≠ none := by
  unfold afterDepcheck at h
  repeat' split at h
  all_goals injection h with h1 h2 h3
  all_goals subst h3
  all_goals simp_all [List.length_eq_zero]

theorem missPath_cacheWrite (env : Env) (req : Req) (hash : String) (resp : Resp)
    (out : Outcome) (c : String → Option Bytes) (ev : List Ev) (k : String)
    (h : missPath env req hash resp = .ok out c ev) (hk : Ev.cacheWrite k ∈ ev) :
    env.esbuildErrors = [] ∧ env.esbuildOut ≠ none := by
  unfold missPath at h
  repeat' split at h
  all_goals first
    | (injection h with h1 h2 h3; subst h3; simp_all)
    | exact afterDepcheck_cacheWrite _ _ _ _ _ _ _ _ _ h hk

/-- **C5**: when any pipeline stage fails, the final cache state is the
initial one — in particular no entry appears under the request's cache
key — and a cache write occurs in a request's trace only when the
bundling engine reported zero errors and the output file was read
successfully. -/
theorem pipeline_failure_cache_unchanged (fuel : Nat) (env : Env) (req : Req) :
    (∀ m e c ev, handle fuel env req = .ok (.failed m e) c ev → c = env.cache) ∧
    (∀ out c ev k, handle fuel env req = .ok out c ev → Ev.cacheWrite k ∈ ev →
      env.esbuildErrors = [] ∧ env.esbuildOut ≠ none) := by
  constructor
  · intro m e c ev h
    unfold handle at h
    repeat' split at h
    all_goals first
      | (injection h with h1 h2 h3; exact h2.symm)
      | injection h
      | exact missPath_failed_cache _ _ _ _ _ _ _ _ h
  · intro out c ev k h hk
    unfold handle at h
    repeat' split at h
    all_goals first
      | (injection h with h1 h2 h3; subst h3; exact absurd hk (List.not_mem_nil _))
      | injection h
      | exact missPath_cacheWrite _ _ _ _ _ _ _ _ h hk

def envC5 : Env :=
  { net := fun _ => .ok ⟨200, "200 OK", none, .ok [7]⟩, cache := fun _ => none,
    readFile := fun _ => .ok [], mkdirTemp := .ok "/tmp/vite-build-5", mkdirSrcErr := none,
    writeFile := fun _ => none, depcheckRun := .success, depcheckStdout := "{}",
    depcheckStderr := "", jsonParse := fun _ => .ok [], installRun := fun _ => .success,
    installStdout := "", esbuildErrors := ["syntax error"], esbuildOut := none,
    cacheWriteErr := none }

def reqC5 : Req := ⟨"/https://h/c5.ts", "", "", "h", ""⟩

set_option maxRecDepth 100000 in
theorem pipeline_failure_cache_unchanged_witness :
    handle 3 envC5 reqC5 =
      .ok (.failed "Build failed" (buildFailedErr ["syntax error"])) envC5.cache
        [.depcheckRun, .installRun ["install"], .esbuildRun] ∧
    envC5.cache = envC5.cache :=
  ⟨rfl,
    (pipeline_failure_cache_unchanged 3 envC5 reqC5).1 "Build failed"
      (buildFailedErr ["syntax error"]) envC5.cache
      [.depcheckRun, .installRun ["install"], .esbuildRun] rfl⟩

/-! ### C6: the failure response is an executable error script -/

/-- **C6**: every pipeline failure is answered through `sendError`:
status 200 (the default is never overridden), `Content-Type:
application/javascript`, and a body of exactly two `console.error`
statements — the first with the JSON-encoded summary message, the
second with the quoted raw error string. -/
theorem failure_response_script (fuel : Nat) (env : Env) (req : Req) (m e : String)
    (c : String → Option Bytes) (ev : List Ev)
    (h : handle fuel env req = .ok (.failed m e) c ev) :
    responseOf (.failed m e) = errResp m e ∧
    (errResp m e).status = 200 ∧
    (errResp m e).headers = [("Content-Type", "application/javascript")] ∧
    (errResp m e).body =
      strBytes ("console.error(" ++ jsonMarshalString m ++ ");" ++
                "console.error(" ++ goQuote e ++ ")") :=
  ⟨rfl, rfl, rfl, rfl⟩

def envC6 : Env :=
  { envC3 with net := fun _ => .error "connection refused" }

def reqC6 : Req := ⟨"/https://h/c6.ts", "", "", "h", ""⟩

theorem failure_response_script_witness :
    handle 3 envC6 reqC6 =
      .ok (.failed ("Failed to fetch URL: " ++ "connection refused") "connection refused")
        envC6.cache [] ∧
    ((errResp ("Failed to fetch URL: " ++ "connection refused") "connection refused").status = 200 ∧
     (errResp ("Failed to fetch URL: " ++ "connection refused") "connection refused").headers =
       [("Content-Type", "application/javascript")] ∧
     (errResp ("Failed to fetch URL: " ++ "connection refused") "connection refused").body =
       strBytes ("console.error(" ++
         jsonMarshalString ("Failed to fetch URL: " ++ "connection refused") ++ ");" ++
         "console.error(" ++ goQuote "connection refused" ++ ")")) :=
  ⟨rfl, (failure_response_script 3 envC6 reqC6 _ _ envC6.cache [] rfl).2⟩

/-! ### C7: the depcheck exit-code policy -/

/-- **C7**: when the dependency-discovery tool exits nonzero, exit code
255 (depcheck's "ran successfully, found issues" code) is treated as
success — the pipeline goes on to parse the tool's stdout — while every
other exit code aborts the pipeline with an error response carrying the
captured stdout and stderr. -/
theorem depcheck_exit_code_policy (env : Env) (req : Req) (hash tmp : String) (resp : Resp)
    (content : Bytes) (c : Nat)
    (hbody : resp.body = .ok content)
    (htmp : env.mkdirTemp = .ok tmp)
    (hsrc : env.mkdirSrcErr = none)
    (hman : copyManifests env tmp manifestFiles = none)
    (hidx : env.writeFile (tmp ++ "/src/index.ts") = none)
    (hrun : env.depcheckRun = .exitErr c) :
    (c = 255 → depcheckStep env = .ok env.depcheckStdout ∧
      missPath env req hash resp = afterDepcheck env req hash tmp env.depcheckStdout) ∧
    (c ≠ 255 → missPath env req hash resp =
      .ok (.failed ("Depcheck failed: " ++ env.depcheckStdout ++ "\n" ++ env.depcheckStderr)
                   ("exit status " ++ toString c)) env.cache [.depcheckRun]) := by
  constructor
  · intro h255
    have hstep : depcheckStep env = .ok env.depcheckStdout := by
      unfold depcheckStep
      rw [hrun, h255]
      simp
    refine ⟨hstep, ?_⟩
    unfold missPath
    simp only [hbody, htmp, hsrc, hman, hidx, hstep]
  · intro hne
    have hstep : depcheckStep env =
        .error ("Depcheck failed: " ++ env.depcheckStdout ++ "\n" ++ env.depcheckStderr,
                "exit status " ++ toString c) := by
      unfold depcheckStep
      rw [hrun]
      simp [hne]
    unfold missPath
    simp only [hbody, htmp, hsrc, hman, hidx, hstep]

def envC7 : Env :=
  { envC5 with depcheckRun := .exitErr 1, depcheckStdout := "out", depcheckStderr := "err" }

def respC7 : Resp := ⟨200, "200 OK", none, .ok [7]⟩

theorem depcheck_exit_code_policy_witness :
    missPath envC7 reqC5 "k" respC7 =
      .ok (.failed ("Depcheck failed: " ++ "out" ++ "\n" ++ "err") ("exit status " ++ toString 1))
        envC7.cache [.depcheckRun] :=
  (depcheck_exit_code_policy envC7 reqC5 "k" "/tmp/vite-build-5" respC7 [7] 1
    rfl rfl rfl (by decide) rfl rfl).2 (by decide)

/-! ### C8: the installer runs exactly once, with every missing key -/

def installCount (evs : List Ev) : Nat :=
  (evs.filter fun e => match e with | .installRun _ => true | _ => false).length

/-- **C8**: once the missing-dependency set is parsed, the
package-installation tool is invoked exactly once: its argument list
contains every key of the set (after `--save` when the set is
non-empty), an empty set still runs the bare `install`, and a nonzero
installer exit aborts the pipeline with the captured output without any
second invocation. -/
theorem install_single_invocation (env : Env) (req : Req) (hash tmp output : String)
    (missing : List (String × List String))
    (hparse : env.jsonParse output = .ok missing) :
    (∀ out c ev, afterDepcheck env req hash tmp output = .ok out c ev → installCount ev = 1) ∧
    (∀ k, k ∈ missing.map Prod.fst → k ∈ installArgs missing) ∧
    (missing = [] → installArgs missing = ["install"]) ∧
    (∀ code, env.installRun (installArgs missing) = .exitErr code →
      afterDepcheck env req hash tmp output =
        .ok (.failed ("bun install failed: " ++ env.installStdout)
                     ("exit status " ++ toString code))
          env.cache [.depcheckRun, .installRun (installArgs missing)]) := by
  refine ⟨?_, ?_, ?_, ?_⟩
  · intro out c ev h
    unfold afterDepcheck at h
    simp only [hparse] at h
    repeat' split at h
    all_goals injection h with h1 h2 h3
    all_goals subst h3
    all_goals simp [installCount]
  · intro k hk
    unfold installArgs
    exact List.mem_append.mpr (Or.inr hk)
  · intro hempty
    subst hempty
    rfl
  · intro code hcode
    unfold afterDepcheck
    simp only [hparse, hcode]

def envC8 : Env :=
  { envC5 with jsonParse := fun s => if s = "{}" then .ok [("leftpad", ["src/index.ts"])]
                 else .error "bad json",
               installRun := fun _ => .exitErr 2, installStdout := "registry down" }

theorem install_single_invocation_witness :
    installArgs [("leftpad", ["src/index.ts"])] = ["install", "--save", "leftpad"] ∧
    afterDepcheck envC8 reqC5 "k" "/tmp/vite-build-5" "{}" =
      .ok (.failed ("bun install failed: " ++ "registry down") ("exit status " ++ toString 2))
        envC8.cache
        [.depcheckRun, .installRun (installArgs [("leftpad", ["src/index.ts"])])] :=
  ⟨by decide,
    (install_single_invocation envC8 reqC5 "k" "/tmp/vite-build-5" "{}"
      [("leftpad", ["src/index.ts"])] (by decide)).2.2.2 2 rfl⟩

/-! ### C9: a redirect without a Location header crashes the handler -/

def envC9 : Env :=
  { envC3 with net := fun _ => .ok ⟨301, "301 Moved Permanently", none, .ok []⟩ }

def reqC9 : Req := ⟨"/https://h/c9.ts", "", "", "h", ""⟩

/-- **C9**: line 172 discards the error of `resp.Location()`; on a
301/302/303/307 response with no `Location` header the resolved URL is
nil and `u.String()` dereferences it, so the handler is partial: the
crash outcome is reachable. -/
theorem redirect_without_location_crashes : handle 5 envC9 reqC9 = HOut.crash := rfl

/-! ### C10: the target URL always carries the "?" separator -/

theorem trimLeadSlash_append (p : String) : trimLeadSlash ("/" ++ p) = p := by
  cases p with
  | mk d => rfl

theorem followLoop_stop (net : String → Except String Resp) (u : String) (r : Resp)
    (h : respIsRedirect r = false) : ∀ m, followLoop net m u r = .ok u r := by
  intro m
  cases m <;> simp [followLoop, h]

theorem slash_append_ne_root (p : String) (hp : p ≠ "") : ("/" ++ p : String) ≠ "/" := by
  intro h
  apply hp
  cases p with
  | mk d =>
    have : ('/' :: d : List Char) = ['/'] := congrArg String.data h
    cases d with
    | nil => rfl
    | cons x xs => cases this

/-- **C10**: for every request with a non-root path, the fetched URL is
the path after the leading slash concatenated — unconditionally — with
`"?"` and the raw query, so an empty query yields a URL with a trailing
`"?"`; that string is both the one hashed into the cache key and the
one compared against the canonical URL, as shown by the cache hit being
served under `cacheKey (p ++ "?")` with no redirect issued. -/
theorem empty_query_trailing_qmark (fuel : Nat) (p : String) (env : Env) (req : Req)
    (r0 : Resp) (bundle : Bytes)
    (hpath : req.path = "/" ++ p) (hq : req.rawQuery = "") (hp : p ≠ "")
    (hnet : env.net (p ++ "?") = .ok r0)
    (hnored : respIsRedirect r0 = false)
    (h200 : r0.statusCode = 200)
    (hcache : env.cache (cacheKey (p ++ "?")) = some bundle) :
    reqURL req = p ++ "?" ∧
    handle fuel env req =
      .ok (.served (serveBundle env.cache req.ifNoneMatch (cacheKey (p ++ "?"))) true)
        env.cache [] := by
  have hurl : reqURL req = p ++ "?" := by
    unfold reqURL
    rw [hpath, hq, trimLeadSlash_append, String.append_empty]
  refine ⟨hurl, ?_⟩
  unfold handle
  rw [if_neg (hpath ▸ slash_append_ne_root p hp), hurl]
  simp only [hnet, followLoop_stop env.net (p ++ "?") r0 hnored fuel]
  rw [if_neg (by rw [h200]; exact fun hne => hne rfl)]
  rw [if_neg (fun hne => hne rfl), if_pos (by rw [hcache]; rfl)]

def respC10 : Resp := ⟨200, "200 OK", none, .ok [9]⟩

def envC10 : Env :=
  { envC3 with net := fun s => if s = "http://h/a.ts?" then .ok respC10 else .error "nh",
               cache := fun k => if k = cacheKey "http://h/a.ts?" then some [9] else none }

def reqC10 : Req := ⟨"/http://h/a.ts", "", "", "h", ""⟩

set_option maxRecDepth 100000 in
theorem empty_query_trailing_qmark_witness :
    reqURL reqC10 = "http://h/a.ts?" ∧
    handle 2 envC10 reqC10 =
      .ok (.served (serveBundle envC10.cache reqC10.ifNoneMatch (cacheKey "http://h/a.ts?")) true)
        envC10.cache [] :=
  empty_query_trailing_qmark 2 "http://h/a.ts" envC10 reqC10 respC10 [9]
    (by decide) rfl (by decide) (by decide) (by decide) rfl (by decide)

end EsbuildProxy
